import Mathlib

/-!
Verification of the compilation-job polling loop ("JobWaiter") from
`sagemaker_neo_compilation_jobs/pytorch_torchvision/pytorch_torchvision_neo.ipynb`
(cell 9), together with the locally-constructed output path of cell 8.

The Python source being embedded:

```
compiled_model_path = "s3://" + bucket + "/" + compilation_job_name + "/output"   # cell 8
...
# Poll every 30 sec
while True:
    response = sm_client.describe_compilation_job(CompilationJobName=compilation_job_name)
    if response["CompilationJobStatus"] == "COMPLETED":
        break
    elif response["CompilationJobStatus"] == "FAILED":
        raise RuntimeError("Compilation failed")
    print("Compiling ...")
    time.sleep(30)
print("Done!")

# Extract compiled model artifact
compiled_model_path = response["ModelArtifacts"]["S3ModelArtifacts"]
```

Modelling choices:
* A `describe_compilation_job` response is a record whose fields are `Option`s,
  so that a missing dictionary key is representable; a Python `d["k"]` access on
  a missing key raises `KeyError("k")`, modelled by `PyError.keyError`.
* A single query (one `describe_compilation_job` call) either returns a
  response or itself raises (`QueryResult.err`), modelling a network/service
  fault; the Python loop has no `try`, so such an error propagates.
* The loop consumes a finite list of query results, one per iteration; since
  `while True` may not terminate, the run returns `none` in its `result` field
  when the supplied observations are exhausted without reaching a terminal
  branch (the loop is still running and would issue further queries).
* The trace records how many queries were issued (`queries`) and the duration
  argument of every `time.sleep` call executed, in order (`sleeps`).
-/

/-- The `"ModelArtifacts"` sub-dictionary of a describe response; its
`"S3ModelArtifacts"` key may be absent. -/
structure ModelArtifacts where
  s3ModelArtifacts : Option String
deriving Repr, DecidableEq

/-- A `describe_compilation_job` response, restricted to the keys the
notebook reads: `"CompilationJobStatus"` and `"ModelArtifacts"`; either key
may be absent. -/
structure Response where
  compilationJobStatus : Option String
  modelArtifacts : Option ModelArtifacts
deriving Repr, DecidableEq

/-- Python exceptions the embedded code can raise: a `KeyError` from a
dictionary access, the `RuntimeError` of the failure branch, or an error
raised by the boto3 client call itself (e.g. a network fault). -/
inductive PyError where
  | keyError (key : String)
  | runtimeError (msg : String)
  | clientError (msg : String)
deriving Repr, DecidableEq

/-- The outcome of one `describe_compilation_job` call: a response, or an
exception raised by the call itself. -/
inductive QueryResult where
  | ok (response : Response)
  | err (e : PyError)
deriving Repr, DecidableEq

/-- How the `while True` loop exits: `break` with the final response bound to
`response` (the `"COMPLETED"` branch), or an exception propagating out. -/
inductive LoopExit where
  | broke (response : Response)
  | raised (e : PyError)
deriving Repr, DecidableEq

/-- Observable trace of a run of the polling loop: number of
`describe_compilation_job` queries issued, the argument of each executed
`time.sleep` in order, and how the loop exited (`none` = the supplied
observations ran out with the loop still running). -/
structure LoopTrace where
  queries : Nat
  sleeps : List Nat
  result : Option LoopExit
deriving Repr, DecidableEq

/-- The literal duration passed to `time.sleep` in the loop body
(`time.sleep(30)`, cell 9, "Poll every 30 sec"). -/
def pollSleepSeconds : Nat := 30

/-- The locally-constructed output location of cell 8:
`"s3://" + bucket + "/" + compilation_job_name + "/output"`. This is the value
`compiled_model_path` holds before the loop; after the loop it is overwritten
from the response. -/
def compiled_model_path_local (bucket compilation_job_name : String) : String :=
  "s3://" ++ bucket ++ "/" ++ compilation_job_name ++ "/output"

/-- The `while True` polling loop of cell 9, consuming one query result per
iteration. Each iteration issues one query; a response lacking
`"CompilationJobStatus"` raises `KeyError`; status `"COMPLETED"` breaks with
the response; status `"FAILED"` raises `RuntimeError("Compilation failed")`;
any other status sleeps `pollSleepSeconds` and loops. -/
def pollLoop : List QueryResult → LoopTrace
  | [] => ⟨0, [], none⟩
  | qr :: rest =>
    match qr with
    | .err e => ⟨1, [], some (.raised e)⟩
    | .ok response =>
      match response.compilationJobStatus with
      | none => ⟨1, [], some (.raised (.keyError "CompilationJobStatus"))⟩
      | some status =>
        if status = "COMPLETED" then
          ⟨1, [], some (.broke response)⟩
        else if status = "FAILED" then
          ⟨1, [], some (.raised (.runtimeError "Compilation failed"))⟩
        else
          let t := pollLoop rest
          ⟨t.queries + 1, pollSleepSeconds :: t.sleeps, t.result⟩

/-- The post-loop extraction
`compiled_model_path = response["ModelArtifacts"]["S3ModelArtifacts"]`:
each of the two dictionary accesses raises `KeyError` when its key is
absent. -/
def getS3ModelArtifacts (response : Response) : Except PyError String :=
  match response.modelArtifacts with
  | none => Except.error (.keyError "ModelArtifacts")
  | some ma =>
    match ma.s3ModelArtifacts with
    | none => Except.error (.keyError "S3ModelArtifacts")
    | some p => Except.ok p

/-- Final outcome of the wait: normal completion with the extracted
`compiled_model_path`, or a propagated exception. -/
inductive WaitOutcome where
  | success (compiledModelPath : String)
  | raised (e : PyError)
deriving Repr, DecidableEq

/-- Observable trace of the whole wait operation (loop plus post-loop
artifact extraction). `outcome = none` means the loop was still running when
the supplied observations ran out. -/
structure WaitTrace where
  queries : Nat
  sleeps : List Nat
  outcome : Option WaitOutcome
deriving Repr, DecidableEq

/-- The full wait operation of cell 9: run the polling loop; on `break`,
extract `response["ModelArtifacts"]["S3ModelArtifacts"]` from the final
response; any exception propagates. -/
def waitForCompilation (qs : List QueryResult) : WaitTrace :=
  let t := pollLoop qs
  match t.result with
  | none => ⟨t.queries, t.sleeps, none⟩
  | some (.raised e) => ⟨t.queries, t.sleeps, some (.raised e)⟩
  | some (.broke response) =>
    ⟨t.queries, t.sleeps,
      some (match getS3ModelArtifacts response with
            | .ok p => .success p
            | .error e => .raised e)⟩

/-- Classification of a single query observation by the branch the loop body
takes on it: the query call itself raised; the response lacks the status key;
terminal success (`"COMPLETED"`); terminal failure (`"FAILED"`); any other
status (the loop keeps running). -/
inductive ObsClass where
  | fault
  | missingStatus
  | terminalSuccess
  | terminalFailure
  | running
deriving Repr, DecidableEq

/-- Compute the class of one observation, mirroring exactly the branch
structure of the loop body. -/
def obsClass (qr : QueryResult) : ObsClass :=
  match qr with
  | .err _ => .fault
  | .ok response =>
    match response.compilationJobStatus with
    | none => .missingStatus
    | some status =>
      if status = "COMPLETED" then .terminalSuccess
      else if status = "FAILED" then .terminalFailure
      else .running

/-- The class of a response observed without a query fault. -/
def respClass (r : Response) : ObsClass :=
  obsClass (.ok r)

/-- Coarse exit branch of the loop, for comparing two runs: still waiting,
succeeded (broke out), or failed (raised). -/
inductive ExitBranch where
  | stillWaiting
  | succeeded
  | failed
deriving Repr, DecidableEq

/-- Map a loop result to its exit branch. -/
def branchOf : Option LoopExit → ExitBranch
  | none => .stillWaiting
  | some (.broke _) => .succeeded
  | some (.raised _) => .failed

/-! ### Basic lemmas about one loop iteration -/

/-- A query fault at the head exits immediately: one query, no sleep, the
error propagates; the rest of the observations are never consumed. -/
lemma pollLoop_cons_err (e : PyError) (qs : List QueryResult) :
    pollLoop (.err e :: qs) = ⟨1, [], some (.raised e)⟩ := rfl

/-- A response lacking the status key exits immediately with `KeyError`. -/
lemma pollLoop_cons_noStatus (r : Response) (h : r.compilationJobStatus = none)
    (qs : List QueryResult) :
    pollLoop (.ok r :: qs) = ⟨1, [], some (.raised (.keyError "CompilationJobStatus"))⟩ := by
  simp [pollLoop, h]

/-- A `"COMPLETED"` response at the head breaks immediately with that
response: one query, no sleep, rest never consumed. -/
lemma pollLoop_cons_completed (r : Response)
    (h : r.compilationJobStatus = some "COMPLETED") (qs : List QueryResult) :
    pollLoop (.ok r :: qs) = ⟨1, [], some (.broke r)⟩ := by
  simp [pollLoop, h]

/-- A `"FAILED"` response at the head raises immediately: one query, no
sleep, rest never consumed. -/
lemma pollLoop_cons_failed (r : Response)
    (h : r.compilationJobStatus = some "FAILED") (qs : List QueryResult) :
    pollLoop (.ok r :: qs) = ⟨1, [], some (.raised (.runtimeError "Compilation failed"))⟩ := by
  simp [pollLoop, h]

/-- A running (non-terminal) observation at the head adds one query and one
sleep of `pollSleepSeconds` and continues with the rest. -/
lemma pollLoop_cons_running (qr : QueryResult) (h : obsClass qr = .running)
    (qs : List QueryResult) :
    pollLoop (qr :: qs) =
      ⟨(pollLoop qs).queries + 1, pollSleepSeconds :: (pollLoop qs).sleeps,
        (pollLoop qs).result⟩ := by
  cases qr with
  | err e => simp [obsClass] at h
  | ok r =>
    cases hs : r.compilationJobStatus with
    | none => simp [obsClass, hs] at h
    | some status =>
      have hc : status ≠ "COMPLETED" := by
        intro heq
        simp [obsClass, hs, heq] at h
      have hf : status ≠ "FAILED" := by
        intro heq
        simp [obsClass, hs, heq] at h
      simp [pollLoop, hs, hc, hf]

/-- Running a loop whose observations are all non-terminal: all queries are
consumed, one sleep per observation, and the loop has not exited. -/
lemma pollLoop_all_running (qs0 : List QueryResult)
    (h : ∀ qr ∈ qs0, obsClass qr = .running) (qs : List QueryResult) :
    pollLoop (qs0 ++ qs) =
      ⟨(pollLoop qs).queries + qs0.length,
        List.replicate qs0.length pollSleepSeconds ++ (pollLoop qs).sleeps,
        (pollLoop qs).result⟩ := by
  induction qs0 with
  | nil => simp
  | cons qr rest ih =>
    have hqr : obsClass qr = .running := h qr (List.mem_cons_self qr rest)
    have hrest : ∀ x ∈ rest, obsClass x = .running := fun x hx => h x (List.mem_cons_of_mem qr hx)
    rw [List.cons_append, pollLoop_cons_running qr hqr, ih hrest]
    simp [List.replicate_succ]
    omega

/-- `respClass` never reports a query fault. -/
lemma respClass_ne_fault (r : Response) : respClass r ≠ ObsClass.fault := by
  cases r with
  | mk st ma =>
    cases st with
    | none => simp [respClass, obsClass]
    | some s =>
      simp only [respClass, obsClass]
      split_ifs <;> simp

/-- A response classified terminal-success has exactly the status
`"COMPLETED"`. -/
lemma respClass_terminalSuccess {r : Response}
    (h : respClass r = ObsClass.terminalSuccess) :
    r.compilationJobStatus = some "COMPLETED" := by
  cases r with
  | mk st ma =>
    cases st with
    | none => simp [respClass, obsClass] at h
    | some s =>
      simp only [respClass, obsClass] at h
      split_ifs at h with h1 h2
      simp [h1]

/-- A response classified terminal-failure has exactly the status
`"FAILED"`. -/
lemma respClass_terminalFailure {r : Response}
    (h : respClass r = ObsClass.terminalFailure) :
    r.compilationJobStatus = some "FAILED" := by
  cases r with
  | mk st ma =>
    cases st with
    | none => simp [respClass, obsClass] at h
    | some s =>
      simp only [respClass, obsClass] at h
      split_ifs at h with h1 h2
      simp [h2]

/-- Every iteration of the loop issues exactly one query on the observation
it consumes, whatever its class. -/
lemma pollLoop_singleton_queries (qr : QueryResult) :
    (pollLoop [qr]).queries = 1 := by
  cases qr with
  | err e => rfl
  | ok r =>
    cases hs : r.compilationJobStatus with
    | none => simp [pollLoop, hs]
    | some s => simp only [pollLoop, hs]; split_ifs <;> rfl

/-- The wait operation reports the same query count as its loop. -/
lemma wait_queries_eq (qs : List QueryResult) :
    (waitForCompilation qs).queries = (pollLoop qs).queries := by
  unfold waitForCompilation
  cases h : (pollLoop qs).result with
  | none => simp [h]
  | some ex => cases ex <;> simp [h]

/-- The wait operation reports the same sleeps as its loop. -/
lemma wait_sleeps_eq (qs : List QueryResult) :
    (waitForCompilation qs).sleeps = (pollLoop qs).sleeps := by
  unfold waitForCompilation
  cases h : (pollLoop qs).result with
  | none => simp [h]
  | some ex => cases ex <;> simp [h]

/-- Every sleep executed by the loop passes exactly `pollSleepSeconds`. -/
lemma pollLoop_sleeps_fixed (qs : List QueryResult) :
    ∀ d ∈ (pollLoop qs).sleeps, d = pollSleepSeconds := by
  induction qs with
  | nil => simp [pollLoop]
  | cons qr rest ih =>
    intro d hd
    cases qr with
    | err e => simp [pollLoop] at hd
    | ok r =>
      cases hs : r.compilationJobStatus with
      | none => rw [pollLoop_cons_noStatus r hs] at hd; simp at hd
      | some s =>
        by_cases hc : s = "COMPLETED"
        · rw [pollLoop_cons_completed r (by rw [hs, hc])] at hd; simp at hd
        · by_cases hf : s = "FAILED"
          · rw [pollLoop_cons_failed r (by rw [hs, hf])] at hd; simp at hd
          · have hr : obsClass (QueryResult.ok r) = ObsClass.running := by
              simp [obsClass, hs, hc, hf]
            rw [pollLoop_cons_running _ hr] at hd
            simp at hd
            rcases hd with hd | hd
            · exact hd
            · exact ih d hd

/-- A run whose observations are a non-terminal prefix followed by a
`"COMPLETED"` response: every prefix element and the terminal response are
queried once each, one fixed sleep separates each consecutive pair of
queries, no sleep follows the terminal query, later observations are never
consumed, and the loop breaks with the terminal response. -/
lemma pollLoop_run_completed (qs0 : List QueryResult)
    (h0 : ∀ qr ∈ qs0, obsClass qr = ObsClass.running)
    (final : Response) (hs : final.compilationJobStatus = some "COMPLETED")
    (qs : List QueryResult) :
    pollLoop (qs0 ++ QueryResult.ok final :: qs) =
      ⟨qs0.length + 1, List.replicate qs0.length pollSleepSeconds,
        some (.broke final)⟩ := by
  rw [pollLoop_all_running qs0 h0 (QueryResult.ok final :: qs),
    pollLoop_cons_completed final hs qs]
  simp [Nat.add_comm]

/-- As `pollLoop_run_completed`, for a terminal `"FAILED"` response: the loop
raises `RuntimeError("Compilation failed")`. -/
lemma pollLoop_run_failed (qs0 : List QueryResult)
    (h0 : ∀ qr ∈ qs0, obsClass qr = ObsClass.running)
    (final : Response) (hs : final.compilationJobStatus = some "FAILED")
    (qs : List QueryResult) :
    pollLoop (qs0 ++ QueryResult.ok final :: qs) =
      ⟨qs0.length + 1, List.replicate qs0.length pollSleepSeconds,
        some (.raised (.runtimeError "Compilation failed"))⟩ := by
  rw [pollLoop_all_running qs0 h0 (QueryResult.ok final :: qs),
    pollLoop_cons_failed final hs qs]
  simp [Nat.add_comm]

/-- As `pollLoop_run_completed`, for a query that itself raises: the error
propagates out of the loop at once. -/
lemma pollLoop_run_err (qs0 : List QueryResult)
    (h0 : ∀ qr ∈ qs0, obsClass qr = ObsClass.running)
    (e : PyError) (qs : List QueryResult) :
    pollLoop (qs0 ++ QueryResult.err e :: qs) =
      ⟨qs0.length + 1, List.replicate qs0.length pollSleepSeconds,
        some (.raised e)⟩ := by
  rw [pollLoop_all_running qs0 h0 (QueryResult.err e :: qs),
    pollLoop_cons_err e qs]
  simp [Nat.add_comm]

/-- As `pollLoop_run_completed`, for a response lacking the status key: the
loop raises the corresponding `KeyError`. -/
lemma pollLoop_run_noStatus (qs0 : List QueryResult)
    (h0 : ∀ qr ∈ qs0, obsClass qr = ObsClass.running)
    (final : Response) (hs : final.compilationJobStatus = none)
    (qs : List QueryResult) :
    pollLoop (qs0 ++ QueryResult.ok final :: qs) =
      ⟨qs0.length + 1, List.replicate qs0.length pollSleepSeconds,
        some (.raised (.keyError "CompilationJobStatus"))⟩ := by
  rw [pollLoop_all_running qs0 h0 (QueryResult.ok final :: qs),
    pollLoop_cons_noStatus final hs qs]
  simp [Nat.add_comm]

/-- Wait-level version of `pollLoop_run_completed`: the outcome applies the
post-loop artifact extraction to the final response. -/
lemma wait_run_completed (qs0 : List QueryResult)
    (h0 : ∀ qr ∈ qs0, obsClass qr = ObsClass.running)
    (final : Response) (hs : final.compilationJobStatus = some "COMPLETED")
    (qs : List QueryResult) :
    waitForCompilation (qs0 ++ QueryResult.ok final :: qs) =
      ⟨qs0.length + 1, List.replicate qs0.length pollSleepSeconds,
        some (match getS3ModelArtifacts final with
              | .ok p => WaitOutcome.success p
              | .error e => WaitOutcome.raised e)⟩ := by
  unfold waitForCompilation
  rw [pollLoop_run_completed qs0 h0 final hs qs]

/-- Wait-level version of `pollLoop_run_failed`. -/
lemma wait_run_failed (qs0 : List QueryResult)
    (h0 : ∀ qr ∈ qs0, obsClass qr = ObsClass.running)
    (final : Response) (hs : final.compilationJobStatus = some "FAILED")
    (qs : List QueryResult) :
    waitForCompilation (qs0 ++ QueryResult.ok final :: qs) =
      ⟨qs0.length + 1, List.replicate qs0.length pollSleepSeconds,
        some (.raised (.runtimeError "Compilation failed"))⟩ := by
  unfold waitForCompilation
  rw [pollLoop_run_failed qs0 h0 final hs qs]

/-- Wait-level version of `pollLoop_run_err`. -/
lemma wait_run_err (qs0 : List QueryResult)
    (h0 : ∀ qr ∈ qs0, obsClass qr = ObsClass.running)
    (e : PyError) (qs : List QueryResult) :
    waitForCompilation (qs0 ++ QueryResult.err e :: qs) =
      ⟨qs0.length + 1, List.replicate qs0.length pollSleepSeconds,
        some (.raised e)⟩ := by
  unfold waitForCompilation
  rw [pollLoop_run_err qs0 h0 e qs]

/-- Wait-level version of `pollLoop_run_noStatus`. -/
lemma wait_run_noStatus (qs0 : List QueryResult)
    (h0 : ∀ qr ∈ qs0, obsClass qr = ObsClass.running)
    (final : Response) (hs : final.compilationJobStatus = none)
    (qs : List QueryResult) :
    waitForCompilation (qs0 ++ QueryResult.ok final :: qs) =
      ⟨qs0.length + 1, List.replicate qs0.length pollSleepSeconds,
        some (.raised (.keyError "CompilationJobStatus"))⟩ := by
  unfold waitForCompilation
  rw [pollLoop_run_noStatus qs0 h0 final hs qs]

/-! ### Sample observations used to instantiate the theorems -/

/-- A typical in-progress describe response. -/
def ipResponse : Response := ⟨some "IN_PROGRESS", none⟩

/-- A describe response with the status `"STOPPED"`, a status the loop does
not treat as terminal. -/
def stoppedResponse : Response := ⟨some "STOPPED", none⟩

/-- A completed describe response carrying a model-artifact locator. -/
def completedResponse : Response :=
  ⟨some "COMPLETED", some ⟨some "s3://bucket/output/model.tar"⟩⟩

/-- A failed describe response (the service also reports other fields on
failure; the loop reads none of them). -/
def failedResponse : Response := ⟨some "FAILED", none⟩

/-! ### Claims -/

/-- C1: for every sequence of observations ending in the terminal-success
status, the wait returns the result locator extracted from the final query
response (its model-artifacts field), not the locally-constructed output
path of cell 8 (whenever the two differ, the returned value is the field of
the response, not the local path). -/
theorem C1_wait_returns_response_artifact (qs0 : List QueryResult)
    (h0 : ∀ qr ∈ qs0, obsClass qr = ObsClass.running)
    (final : Response) (a : String)
    (hs : final.compilationJobStatus = some "COMPLETED")
    (ha : getS3ModelArtifacts final = Except.ok a)
    (bucket jobName : String)
    (hneq : a ≠ compiled_model_path_local bucket jobName) :
    (waitForCompilation (qs0 ++ [QueryResult.ok final])).outcome =
      some (WaitOutcome.success a) ∧
    (waitForCompilation (qs0 ++ [QueryResult.ok final])).outcome ≠
      some (WaitOutcome.success (compiled_model_path_local bucket jobName)) := by
  have hw := wait_run_completed qs0 h0 final hs []
  rw [hw, ha]
  refine ⟨rfl, ?_⟩
  simp [hneq]

/-- Witness for C1 at the scenario of the spec: two in-progress observations
then a completed response whose artifact field differs from the
locally-constructed path. -/
theorem C1_witness :
    (waitForCompilation ([QueryResult.ok ipResponse, QueryResult.ok ipResponse] ++
        [QueryResult.ok completedResponse])).outcome =
      some (WaitOutcome.success "s3://bucket/output/model.tar") ∧
    (waitForCompilation ([QueryResult.ok ipResponse, QueryResult.ok ipResponse] ++
        [QueryResult.ok completedResponse])).outcome ≠
      some (WaitOutcome.success (compiled_model_path_local "bucket" "TorchVision-ResNet18-Neo")) :=
  C1_wait_returns_response_artifact
    [QueryResult.ok ipResponse, QueryResult.ok ipResponse]
    (by decide) completedResponse "s3://bucket/output/model.tar"
    (by decide) (by rfl) "bucket" "TorchVision-ResNet18-Neo" (by decide)

/-- C2 counterexample: the failure branch raises the constant
`RuntimeError("Compilation failed")`; two runs whose last responses differ
(and would differ in any job-identifying data) raise the very same error
value, so the error carries neither the job identifier nor the last query
response. -/
theorem C2_counterexample :
    (⟨some "FAILED", some ⟨some "s3://bucket-a/job-a/output/model.tar"⟩⟩ : Response) ≠
      failedResponse ∧
    (waitForCompilation
        [QueryResult.ok ⟨some "FAILED", some ⟨some "s3://bucket-a/job-a/output/model.tar"⟩⟩]).outcome =
      some (WaitOutcome.raised (PyError.runtimeError "Compilation failed")) ∧
    (waitForCompilation [QueryResult.ok failedResponse]).outcome =
      some (WaitOutcome.raised (PyError.runtimeError "Compilation failed")) := by
  refine ⟨by decide, ?_, ?_⟩ <;> decide

/-- C2 amended: whenever an observed status equals the terminal-failure
value, the wait fails by raising `RuntimeError` with the constant message
`"Compilation failed"`; the error carries neither the job identifier nor the
last query response (the raised value is the same for every failing final
response). -/
theorem C2_failure_raises_plain_runtime_error (qs0 : List QueryResult)
    (h0 : ∀ qr ∈ qs0, obsClass qr = ObsClass.running)
    (final : Response) (hs : final.compilationJobStatus = some "FAILED")
    (qs : List QueryResult) :
    (waitForCompilation (qs0 ++ QueryResult.ok final :: qs)).outcome =
      some (WaitOutcome.raised (PyError.runtimeError "Compilation failed")) ∧
    ∀ final2 : Response, final2.compilationJobStatus = some "FAILED" →
      (waitForCompilation (qs0 ++ QueryResult.ok final2 :: qs)).outcome =
        (waitForCompilation (qs0 ++ QueryResult.ok final :: qs)).outcome := by
  rw [wait_run_failed qs0 h0 final hs qs]
  refine ⟨rfl, ?_⟩
  intro final2 hs2
  rw [wait_run_failed qs0 h0 final2 hs2 qs]

/-- Witness for the amended C2: one in-progress observation then a failed
response. -/
theorem C2_witness :
    (waitForCompilation ([QueryResult.ok ipResponse] ++
        QueryResult.ok failedResponse :: [])).outcome =
      some (WaitOutcome.raised (PyError.runtimeError "Compilation failed")) ∧
    ∀ final2 : Response, final2.compilationJobStatus = some "FAILED" →
      (waitForCompilation ([QueryResult.ok ipResponse] ++
          QueryResult.ok final2 :: [])).outcome =
        (waitForCompilation ([QueryResult.ok ipResponse] ++
            QueryResult.ok failedResponse :: [])).outcome :=
  C2_failure_raises_plain_runtime_error [QueryResult.ok ipResponse]
    (by decide) failedResponse (by decide) []

/-- C3: for every sequence of observations ending in terminal-success, the
waiter issues exactly one query per observation (the last of which is the
terminal query), with one fixed-duration sleep between consecutive queries
and none after the terminal query; later observations are never consumed. -/
theorem C3_success_query_and_sleep_counts (qs0 : List QueryResult)
    (h0 : ∀ qr ∈ qs0, obsClass qr = ObsClass.running)
    (final : Response) (hs : final.compilationJobStatus = some "COMPLETED")
    (qs : List QueryResult) :
    (waitForCompilation (qs0 ++ QueryResult.ok final :: qs)).queries =
      qs0.length + 1 ∧
    (waitForCompilation (qs0 ++ QueryResult.ok final :: qs)).sleeps =
      List.replicate qs0.length pollSleepSeconds ∧
    waitForCompilation (qs0 ++ QueryResult.ok final :: qs) =
      waitForCompilation (qs0 ++ [QueryResult.ok final]) := by
  rw [wait_run_completed qs0 h0 final hs qs, wait_run_completed qs0 h0 final hs []]
  exact ⟨rfl, rfl, rfl⟩

/-- Witness for C3 at the scenario of the spec: observations
IN_PROGRESS, IN_PROGRESS, COMPLETED give exactly 3 queries and 2 sleeps. -/
theorem C3_witness :
    (waitForCompilation ([QueryResult.ok ipResponse, QueryResult.ok ipResponse] ++
        QueryResult.ok completedResponse :: [])).queries = 2 + 1 ∧
    (waitForCompilation ([QueryResult.ok ipResponse, QueryResult.ok ipResponse] ++
        QueryResult.ok completedResponse :: [])).sleeps =
      List.replicate 2 pollSleepSeconds ∧
    waitForCompilation ([QueryResult.ok ipResponse, QueryResult.ok ipResponse] ++
        QueryResult.ok completedResponse :: []) =
      waitForCompilation ([QueryResult.ok ipResponse, QueryResult.ok ipResponse] ++
        [QueryResult.ok completedResponse]) :=
  C3_success_query_and_sleep_counts
    [QueryResult.ok ipResponse, QueryResult.ok ipResponse]
    (by decide) completedResponse (by decide) []

/-- C4: for every sequence of observations ending in the terminal-failure
status, the waiter raises the failure error and issues no further status
queries after the failure observation: the query count is exactly the number
of observations, and any later observations are never consumed. -/
theorem C4_failure_stops_polling (qs0 : List QueryResult)
    (h0 : ∀ qr ∈ qs0, obsClass qr = ObsClass.running)
    (final : Response) (hs : final.compilationJobStatus = some "FAILED")
    (qs : List QueryResult) :
    (waitForCompilation (qs0 ++ QueryResult.ok final :: qs)).outcome =
      some (WaitOutcome.raised (PyError.runtimeError "Compilation failed")) ∧
    (waitForCompilation (qs0 ++ QueryResult.ok final :: qs)).queries =
      qs0.length + 1 ∧
    waitForCompilation (qs0 ++ QueryResult.ok final :: qs) =
      waitForCompilation (qs0 ++ [QueryResult.ok final]) := by
  rw [wait_run_failed qs0 h0 final hs qs, wait_run_failed qs0 h0 final hs []]
  exact ⟨rfl, rfl, rfl⟩

/-- Witness for C4 at the scenario of the spec: observations
IN_PROGRESS, FAILED raise after exactly 2 queries. -/
theorem C4_witness :
    (waitForCompilation ([QueryResult.ok ipResponse] ++
        QueryResult.ok failedResponse :: [])).outcome =
      some (WaitOutcome.raised (PyError.runtimeError "Compilation failed")) ∧
    (waitForCompilation ([QueryResult.ok ipResponse] ++
        QueryResult.ok failedResponse :: [])).queries = 1 + 1 ∧
    waitForCompilation ([QueryResult.ok ipResponse] ++
        QueryResult.ok failedResponse :: []) =
      waitForCompilation ([QueryResult.ok ipResponse] ++
        [QueryResult.ok failedResponse]) :=
  C4_failure_stops_polling [QueryResult.ok ipResponse] (by decide)
    failedResponse (by decide) []

/-- C5: the waiter enforces no local timeout: after any number of
non-terminal observations (of any non-terminal status value, `"STOPPED"`
included) the loop has not exited, has issued one query per observation, and
consumes (queries) the next observation supplied, whatever it is. -/
theorem C5_loops_while_nonterminal (qs0 : List QueryResult)
    (h0 : ∀ qr ∈ qs0, obsClass qr = ObsClass.running)
    (next : QueryResult) :
    (pollLoop qs0).result = none ∧
    (pollLoop qs0).queries = qs0.length ∧
    (pollLoop (qs0 ++ [next])).queries = qs0.length + 1 := by
  have h1 : pollLoop qs0 =
      ⟨qs0.length, List.replicate qs0.length pollSleepSeconds, none⟩ := by
    have := pollLoop_all_running qs0 h0 []
    simpa [pollLoop] using this
  have h2 := pollLoop_all_running qs0 h0 [next]
  rw [h1, h2]
  simp [pollLoop_singleton_queries next, Nat.add_comm]

/-- Witness for C5: after three non-terminal observations, among them
`"STOPPED"`, the loop is still running and queries a fourth time. -/
theorem C5_witness :
    (pollLoop [QueryResult.ok ipResponse, QueryResult.ok stoppedResponse,
        QueryResult.ok ipResponse]).result = none ∧
    (pollLoop [QueryResult.ok ipResponse, QueryResult.ok stoppedResponse,
        QueryResult.ok ipResponse]).queries = 3 ∧
    (pollLoop ([QueryResult.ok ipResponse, QueryResult.ok stoppedResponse,
        QueryResult.ok ipResponse] ++ [QueryResult.ok ipResponse])).queries = 3 + 1 :=
  C5_loops_while_nonterminal
    [QueryResult.ok ipResponse, QueryResult.ok stoppedResponse,
      QueryResult.ok ipResponse]
    (by decide) (QueryResult.ok ipResponse)

/-- C6: every sleep the waiter executes, on any sequence of observations,
passes exactly `pollSleepSeconds`, and that duration is 30 time units
(the literal of `time.sleep(30)`). -/
theorem C6_sleep_duration_fixed_thirty (qs : List QueryResult) (d : Nat)
    (hd : d ∈ (waitForCompilation qs).sleeps) :
    d = pollSleepSeconds ∧ pollSleepSeconds = 30 := by
  rw [wait_sleeps_eq qs] at hd
  exact ⟨pollLoop_sleeps_fixed qs d hd, rfl⟩

/-- Witness for C6: the one sleep of a two-observation run is 30 seconds. -/
theorem C6_witness :
    (30 : Nat) ∈ (waitForCompilation [QueryResult.ok ipResponse,
        QueryResult.ok completedResponse]).sleeps ∧
    (30 : Nat) = pollSleepSeconds ∧ pollSleepSeconds = 30 :=
  ⟨by decide,
    C6_sleep_duration_fixed_thirty
      [QueryResult.ok ipResponse, QueryResult.ok completedResponse] 30 (by decide)⟩

/-- C7: the waiter validates no status-transition legality and trusts the
remote status verbatim: two response sequences that agree pairwise on the
classification of their statuses (terminal-success / terminal-failure /
other), in whatever order those statuses occur, produce the same number of
queries, the same sleeps, and the same exit branch. -/
theorem C7_trace_depends_only_on_status_class (l1 l2 : List Response)
    (h : List.Forall₂ (fun r1 r2 => respClass r1 = respClass r2 ∧
        respClass r1 ≠ ObsClass.missingStatus) l1 l2) :
    (pollLoop (l1.map QueryResult.ok)).queries =
      (pollLoop (l2.map QueryResult.ok)).queries ∧
    (pollLoop (l1.map QueryResult.ok)).sleeps =
      (pollLoop (l2.map QueryResult.ok)).sleeps ∧
    branchOf (pollLoop (l1.map QueryResult.ok)).result =
      branchOf (pollLoop (l2.map QueryResult.ok)).result := by
  induction h with
  | nil => exact ⟨rfl, rfl, rfl⟩
  | cons hab hrest ih =>
    rename_i a b as bs
    obtain ⟨hcls, hmiss⟩ := hab
    simp only [List.map_cons]
    cases hc : respClass a with
    | fault => exact absurd hc (respClass_ne_fault a)
    | missingStatus => exact absurd hc hmiss
    | terminalSuccess =>
      have ha := respClass_terminalSuccess hc
      have hb := respClass_terminalSuccess (hcls ▸ hc : respClass b = _)
      rw [pollLoop_cons_completed a ha (as.map QueryResult.ok),
        pollLoop_cons_completed b hb (bs.map QueryResult.ok)]
      exact ⟨rfl, rfl, rfl⟩
    | terminalFailure =>
      have ha := respClass_terminalFailure hc
      have hb := respClass_terminalFailure (hcls ▸ hc : respClass b = _)
      rw [pollLoop_cons_failed a ha (as.map QueryResult.ok),
        pollLoop_cons_failed b hb (bs.map QueryResult.ok)]
      exact ⟨rfl, rfl, rfl⟩
    | running =>
      have hb : respClass b = ObsClass.running := hcls ▸ hc
      rw [pollLoop_cons_running (QueryResult.ok a) hc (as.map QueryResult.ok),
        pollLoop_cons_running (QueryResult.ok b) hb (bs.map QueryResult.ok)]
      obtain ⟨ihq, ihs, ihb⟩ := ih
      exact ⟨by simp [ihq], by simp [ihs], by simpa [branchOf] using ihb⟩

/-- Witness for C7: a monotone run IN_PROGRESS then COMPLETED and a
non-monotone run COMPLETED-status-preceded-by-STOPPED-like pair, classified
pairwise equal, give identical query counts, sleeps, and branch. -/
theorem C7_witness :
    (pollLoop ([ipResponse, completedResponse].map QueryResult.ok)).queries =
      (pollLoop ([stoppedResponse, ⟨some "COMPLETED", none⟩].map QueryResult.ok)).queries ∧
    (pollLoop ([ipResponse, completedResponse].map QueryResult.ok)).sleeps =
      (pollLoop ([stoppedResponse, ⟨some "COMPLETED", none⟩].map QueryResult.ok)).sleeps ∧
    branchOf (pollLoop ([ipResponse, completedResponse].map QueryResult.ok)).result =
      branchOf (pollLoop ([stoppedResponse, ⟨some "COMPLETED", none⟩].map QueryResult.ok)).result :=
  C7_trace_depends_only_on_status_class
    [ipResponse, completedResponse]
    [stoppedResponse, ⟨some "COMPLETED", none⟩]
    (by refine List.Forall₂.cons ⟨by decide, by decide⟩ ?_
        exact List.Forall₂.cons ⟨by decide, by decide⟩ List.Forall₂.nil)

/-- C8: if a status query itself raises, the waiter propagates exactly that
error to the caller: no retry, no further query (later observations are
never consumed), and no wait interval after the failing query. -/
theorem C8_query_error_propagates (qs0 : List QueryResult)
    (h0 : ∀ qr ∈ qs0, obsClass qr = ObsClass.running)
    (e : PyError) (qs : List QueryResult) :
    (waitForCompilation (qs0 ++ QueryResult.err e :: qs)).outcome =
      some (WaitOutcome.raised e) ∧
    (waitForCompilation (qs0 ++ QueryResult.err e :: qs)).queries =
      qs0.length + 1 ∧
    (waitForCompilation (qs0 ++ QueryResult.err e :: qs)).sleeps =
      List.replicate qs0.length pollSleepSeconds ∧
    waitForCompilation (qs0 ++ QueryResult.err e :: qs) =
      waitForCompilation (qs0 ++ [QueryResult.err e]) := by
  rw [wait_run_err qs0 h0 e qs, wait_run_err qs0 h0 e []]
  exact ⟨rfl, rfl, rfl, rfl⟩

/-- Witness for C8: a network fault on the second query propagates after
exactly 2 queries and 1 sleep, ignoring any later observation. -/
theorem C8_witness :
    (waitForCompilation ([QueryResult.ok ipResponse] ++
        QueryResult.err (PyError.clientError "ThrottlingException") ::
          [QueryResult.ok completedResponse])).outcome =
      some (WaitOutcome.raised (PyError.clientError "ThrottlingException")) ∧
    (waitForCompilation ([QueryResult.ok ipResponse] ++
        QueryResult.err (PyError.clientError "ThrottlingException") ::
          [QueryResult.ok completedResponse])).queries = 1 + 1 ∧
    (waitForCompilation ([QueryResult.ok ipResponse] ++
        QueryResult.err (PyError.clientError "ThrottlingException") ::
          [QueryResult.ok completedResponse])).sleeps =
      List.replicate 1 pollSleepSeconds ∧
    waitForCompilation ([QueryResult.ok ipResponse] ++
        QueryResult.err (PyError.clientError "ThrottlingException") ::
          [QueryResult.ok completedResponse]) =
      waitForCompilation ([QueryResult.ok ipResponse] ++
        [QueryResult.err (PyError.clientError "ThrottlingException")]) :=
  C8_query_error_propagates [QueryResult.ok ipResponse] (by decide)
    (PyError.clientError "ThrottlingException") [QueryResult.ok completedResponse]

/-- C9: the dictionary accesses are unguarded: a response lacking the status
key raises `KeyError("CompilationJobStatus")`; a terminal-success response
lacking the artifacts dictionary raises `KeyError("ModelArtifacts")`; one
whose artifacts dictionary lacks the locator raises
`KeyError("S3ModelArtifacts")` — in each case a key-lookup error, never a
returned result nor the job-failure `RuntimeError`. -/
theorem C9_missing_keys_raise_keyerror (qs0 : List QueryResult)
    (h0 : ∀ qr ∈ qs0, obsClass qr = ObsClass.running)
    (r1 r2 r3 : Response)
    (h1 : r1.compilationJobStatus = none)
    (h2 : r2.compilationJobStatus = some "COMPLETED")
    (h2m : r2.modelArtifacts = none)
    (h3 : r3.compilationJobStatus = some "COMPLETED")
    (h3m : r3.modelArtifacts = some ⟨none⟩) :
    (waitForCompilation (qs0 ++ [QueryResult.ok r1])).outcome =
      some (WaitOutcome.raised (PyError.keyError "CompilationJobStatus")) ∧
    (waitForCompilation (qs0 ++ [QueryResult.ok r2])).outcome =
      some (WaitOutcome.raised (PyError.keyError "ModelArtifacts")) ∧
    (waitForCompilation (qs0 ++ [QueryResult.ok r3])).outcome =
      some (WaitOutcome.raised (PyError.keyError "S3ModelArtifacts")) := by
  refine ⟨?_, ?_, ?_⟩
  · rw [wait_run_noStatus qs0 h0 r1 h1 []]
  · rw [wait_run_completed qs0 h0 r2 h2 []]
    simp [getS3ModelArtifacts, h2m]
  · rw [wait_run_completed qs0 h0 r3 h3 []]
    simp [getS3ModelArtifacts, h3m]

/-- Witness for C9: after one in-progress observation, each of the three
malformed final responses produces its `KeyError`. -/
theorem C9_witness :
    (waitForCompilation ([QueryResult.ok ipResponse] ++
        [QueryResult.ok ⟨none, none⟩])).outcome =
      some (WaitOutcome.raised (PyError.keyError "CompilationJobStatus")) ∧
    (waitForCompilation ([QueryResult.ok ipResponse] ++
        [QueryResult.ok ⟨some "COMPLETED", none⟩])).outcome =
      some (WaitOutcome.raised (PyError.keyError "ModelArtifacts")) ∧
    (waitForCompilation ([QueryResult.ok ipResponse] ++
        [QueryResult.ok ⟨some "COMPLETED", some ⟨none⟩⟩])).outcome =
      some (WaitOutcome.raised (PyError.keyError "S3ModelArtifacts")) :=
  C9_missing_keys_raise_keyerror [QueryResult.ok ipResponse] (by decide)
    ⟨none, none⟩ ⟨some "COMPLETED", none⟩ ⟨some "COMPLETED", some ⟨none⟩⟩
    rfl rfl rfl rfl rfl

/-- C10: when the very first observed status is already terminal, the wait
finishes after exactly one query and zero sleeps — returning the result
locator on terminal-success and raising the failure error on
terminal-failure — never consuming any later observation. -/
theorem C10_immediate_terminal_single_query (rSucc rFail : Response)
    (a : String)
    (h1 : rSucc.compilationJobStatus = some "COMPLETED")
    (h2 : getS3ModelArtifacts rSucc = Except.ok a)
    (h3 : rFail.compilationJobStatus = some "FAILED")
    (qs qs2 : List QueryResult) :
    waitForCompilation (QueryResult.ok rSucc :: qs) =
      ⟨1, [], some (WaitOutcome.success a)⟩ ∧
    waitForCompilation (QueryResult.ok rFail :: qs2) =
      ⟨1, [], some (WaitOutcome.raised (PyError.runtimeError "Compilation failed"))⟩ := by
  constructor
  · have := wait_run_completed [] (by simp) rSucc h1 qs
    simpa [h2] using this
  · simpa using wait_run_failed [] (by simp) rFail h3 qs2

/-- Witness for C10: a first-query COMPLETED (and a first-query FAILED)
observation ends the wait at once with one query and no sleep. -/
theorem C10_witness :
    waitForCompilation (QueryResult.ok completedResponse ::
        [QueryResult.ok ipResponse]) =
      ⟨1, [], some (WaitOutcome.success "s3://bucket/output/model.tar")⟩ ∧
    waitForCompilation (QueryResult.ok failedResponse ::
        [QueryResult.ok ipResponse]) =
      ⟨1, [], some (WaitOutcome.raised (PyError.runtimeError "Compilation failed"))⟩ :=
  C10_immediate_terminal_single_query completedResponse failedResponse
    "s3://bucket/output/model.tar" rfl rfl rfl
    [QueryResult.ok ipResponse] [QueryResult.ok ipResponse]
